import Mathlib

/-!
Verification of the hybrid gesture classification engine of this repository.

The engine lives in src/cpp/src/sign_recognition.cpp (class SignRecognizer and
class SignRecognition) together with a JavaScript normalization routine
(WASMSignRecognizer.normalizeLandmarks).  Scalars are modelled as real numbers;
machine floats carry no other structure that the verified claims depend on.
All list accesses are modelled with List.getD, which is total; the source only
ever indexes within bounds (each entry point guards the length first).
-/

set_option maxHeartbeats 1000000
set_option maxRecDepth 10000

namespace SignRec

open Classical

/-- A hand landmark point with three coordinates, mirroring struct HandLandmark. -/
structure HandLandmark where
  x : ℝ
  y : ℝ
  z : ℝ

/-- A recognition result, mirroring struct RecognitionResult:
gesture string, confidence and integer id. -/
structure RecognitionResult where
  gesture : String
  confidence : ℝ
  id : ℕ

/-- The canonical no-gesture result returned on every fail-closed path:
the Korean string means "not detected", confidence 0, id 0. -/
noncomputable def noGesture : RecognitionResult := ⟨"감지되지 않음", 0, 0⟩

/-- Total landmark access: landmarks are read with a zero default.  In the
source every read is guarded by a length check, so the default is never hit. -/
noncomputable def lmk (lms : List HandLandmark) (i : ℕ) : HandLandmark :=
  lms.getD i ⟨0, 0, 0⟩

/-- SignRecognizer.isFingerExtended: a non-thumb finger is extended iff
tip.y < pip.y and pip.y < mcp.y. -/
def isFingerExtended (tip pip mcp : HandLandmark) : Prop :=
  tip.y < pip.y ∧ pip.y < mcp.y

/-- SignRecognizer.isThumbExtended: the thumb is extended iff the tip is
laterally farther from the wrist than the ip joint. -/
def isThumbExtended (thumbTip thumbIp wrist : HandLandmark) : Prop :=
  |thumbTip.x - wrist.x| > |thumbIp.x - wrist.x|

/-- Index-finger extension test of recognizeByRules (landmarks 8, 6, 5). -/
def indexExt (lms : List HandLandmark) : Prop :=
  isFingerExtended (lmk lms 8) (lmk lms 6) (lmk lms 5)

/-- Middle-finger extension test of recognizeByRules (landmarks 12, 10, 9). -/
def middleExt (lms : List HandLandmark) : Prop :=
  isFingerExtended (lmk lms 12) (lmk lms 10) (lmk lms 9)

/-- Ring-finger extension test of recognizeByRules (landmarks 16, 14, 13). -/
def ringExt (lms : List HandLandmark) : Prop :=
  isFingerExtended (lmk lms 16) (lmk lms 14) (lmk lms 13)

/-- Pinky-finger extension test of recognizeByRules (landmarks 20, 18, 17). -/
def pinkyExt (lms : List HandLandmark) : Prop :=
  isFingerExtended (lmk lms 20) (lmk lms 18) (lmk lms 17)

/-- Thumb extension test of recognizeByRules (landmarks 4, 3 and the wrist 0). -/
def thumbExt (lms : List HandLandmark) : Prop :=
  isThumbExtended (lmk lms 4) (lmk lms 3) (lmk lms 0)

/-- The extendedFingers counter of recognizeByRules. -/
noncomputable def extendedFingers (lms : List HandLandmark) : ℕ :=
  (if thumbExt lms then 1 else 0) + (if indexExt lms then 1 else 0) +
    (if middleExt lms then 1 else 0) + (if ringExt lms then 1 else 0) +
    (if pinkyExt lms then 1 else 0)

/-- SignRecognizer.recognizeByRules: guard on length 21, then the ordered
rule chain of the source (lines 104-150 of sign_recognition.cpp). -/
noncomputable def recognizeByRules (lms : List HandLandmark) : RecognitionResult :=
  if lms.length ≠ 21 then noGesture
  else if extendedFingers lms = 1 ∧ indexExt lms then ⟨"예", 0.85, 3⟩
  else if extendedFingers lms = 5 then ⟨"안녕하세요", 0.80, 1⟩
  else if extendedFingers lms = 0 then ⟨"감사합니다", 0.75, 2⟩
  else if extendedFingers lms = 2 ∧ indexExt lms ∧ middleExt lms then ⟨"V", 0.70, 4⟩
  else if extendedFingers lms = 3 ∧ indexExt lms ∧ middleExt lms ∧ ringExt lms then
    ⟨"OK", 0.70, 5⟩
  else noGesture

/-- SignRecognizer.calculateDistance: Euclidean distance of two landmarks. -/
noncomputable def calculateDistance (a b : HandLandmark) : ℝ :=
  Real.sqrt ((a.x - b.x) * (a.x - b.x) + (a.y - b.y) * (a.y - b.y) +
    (a.z - b.z) * (a.z - b.z))

/-- SignRecognizer.calculateAngle: angle in degrees between the vectors BA and
BC, with the cosine clamped to the interval from -1 to 1, and 0 returned when
either vector is degenerate. -/
noncomputable def calculateAngle (a b c : HandLandmark) : ℝ :=
  let baX := a.x - b.x
  let baY := a.y - b.y
  let bcX := c.x - b.x
  let bcY := c.y - b.y
  let dot := baX * bcX + baY * bcY
  let magBA := Real.sqrt (baX * baX + baY * baY)
  let magBC := Real.sqrt (bcX * bcX + bcY * bcY)
  if magBA = 0 ∨ magBC = 0 then 0
  else Real.arccos (max (-1) (min 1 (dot / (magBA * magBC)))) * 180 / Real.pi

/-- Index pairs (i, j) with i < j over the 21 landmarks, in the loop order of
extractComplexFeatures; there are 210 of them. -/
def pairIndices : List (ℕ × ℕ) :=
  (List.range 21).flatMap fun i =>
    ((List.range 21).filter fun j => i < j).map fun j => (i, j)

/-- The (tip, pip, mcp) index triples of the five fingers used by
extractComplexFeatures for the per-finger angles. -/
def fingerJointTriples : List (ℕ × ℕ × ℕ) :=
  [(4, 3, 2), (8, 6, 5), (12, 10, 9), (16, 14, 13), (20, 18, 17)]

/-- The raw feature list built by SignRecognizer.extractComplexFeatures before
its final standardization step: 210 pairwise distances, 20 wrist distances,
5 finger angles, the 2 palm center coordinates and 19 curvature angles. -/
noncomputable def rawComplexFeatures (lms : List HandLandmark) : List ℝ :=
  let pairDists := pairIndices.map fun p => calculateDistance (lmk lms p.1) (lmk lms p.2)
  let wristDists := (List.range 20).map fun k => calculateDistance (lmk lms (k + 1)) (lmk lms 0)
  let fingerAngles := fingerJointTriples.map fun t =>
    calculateAngle (lmk lms t.1) (lmk lms t.2.1) (lmk lms t.2.2)
  let palmX := ((List.range 5).map fun i => (lmk lms i).x).sum / 5
  let palmY := ((List.range 5).map fun i => (lmk lms i).y).sum / 5
  let curvatures := (List.range 19).map fun k =>
    calculateAngle (lmk lms k) (lmk lms (k + 1)) (lmk lms (k + 2))
  pairDists ++ wristDists ++ fingerAngles ++ [palmX, palmY] ++ curvatures

/-- The trailing standardization of extractComplexFeatures: subtract the mean
and divide by the standard deviation when the latter exceeds 1e-6. -/
noncomputable def standardizeFeatures (fs : List ℝ) : List ℝ :=
  if fs = [] then fs
  else
    let m := fs.sum / fs.length
    let stddev := Real.sqrt ((fs.map fun f => (f - m) * (f - m)).sum / fs.length)
    if stddev > 1e-6 then fs.map fun f => (f - m) / stddev else fs

/-- SignRecognizer.extractComplexFeatures: raw features then standardization. -/
noncomputable def extractComplexFeatures (lms : List HandLandmark) : List ℝ :=
  standardizeFeatures (rawComplexFeatures lms)

/-- The fixed weight value written by SignRecognizer.initialize into every
entry of every layer of the static weight tables. -/
noncomputable def fixedValue : ℝ := 0.05

/-- The fixed bias value of the first layer written by initialize. -/
noncomputable def fixedBias : ℝ := 0.01

/-- Dot product of two float vectors.  The source computes it with an
8-wide SIMD accumulation (vectorDotProduct); over exact scalars that
regrouping yields the same sum, so it is modelled as the plain dot product. -/
noncomputable def vectorDotProduct (a b : List ℝ) : ℝ :=
  (List.zipWith (· * ·) a b).sum

/-- Rectified linear unit used after every hidden layer. -/
noncomputable def relu (x : ℝ) : ℝ := max 0 x

/-- SignRecognizer.neuralNetworkInference in its post-initialize state (the
static neuralWeights tables are nonempty and every entry equals fixedValue, so
each column read from a weight table is a constant column).  A feature vector
whose length is not 210 yields the fail-closed all-zero logits vector. -/
noncomputable def neuralNetworkInference (features : List ℝ) : List ℝ :=
  if features.length ≠ 210 then List.replicate 5 0
  else
    let layer1 := (List.range 128).map fun _ =>
      relu (fixedBias + vectorDotProduct features (List.replicate 210 fixedValue))
    let layer2 := (List.range 64).map fun _ =>
      relu (vectorDotProduct layer1 (List.replicate 128 fixedValue))
    let layer3 := (List.range 32).map fun _ =>
      relu (vectorDotProduct layer2 (List.replicate 64 fixedValue))
    (List.range 5).map fun _ => vectorDotProduct layer3 (List.replicate 32 fixedValue)

/-- The gesture label table of recognizeWithAdvancedML. -/
def gestures : List String := ["감지되지 않음", "안녕하세요", "감사합니다", "예", "V"]

/-- The argmax scan of recognizeWithAdvancedML: start from index 0 and value
outputs[0], then replace the running pair whenever outputs[i] is strictly
larger, for i from 1 to 4. -/
noncomputable def argmax5 (outputs : List ℝ) : ℕ × ℝ :=
  (List.range 4).foldl
    (fun acc k =>
      if outputs.getD (k + 1) 0 > acc.2 then (k + 1, outputs.getD (k + 1) 0) else acc)
    (0, outputs.getD 0 0)

/-- The result interpretation of recognizeWithAdvancedML: guard on at least
5 outputs, take the argmax, normalize its value by the softmax denominator,
and map the index through the gesture table. -/
noncomputable def interpretOutputs (outputs : List ℝ) : RecognitionResult :=
  if outputs.length < 5 then noGesture
  else
    let am := argmax5 outputs
    let confidence := Real.exp am.2 / (outputs.map Real.exp).sum
    if am.1 < gestures.length then ⟨gestures.getD am.1 "", confidence, am.1⟩
    else noGesture

/-- SignRecognizer.recognizeWithAdvancedML: extract the complex features, run
the virtual network, interpret the outputs. -/
noncomputable def recognizeWithAdvancedML (lms : List HandLandmark) : RecognitionResult :=
  interpretOutputs (neuralNetworkInference (extractComplexFeatures lms))

/-- The mutable threshold state of a SignRecognizer instance. -/
structure SignRecognizerState where
  detectionThreshold : ℝ
  recognitionThreshold : ℝ

/-- The constructor state of SignRecognizer: detection threshold 0.5 and
recognition threshold 0.7. -/
noncomputable def initialState : SignRecognizerState := ⟨0.5, 0.7⟩

/-- SignRecognizer.setDetectionThreshold. -/
def setDetectionThreshold (st : SignRecognizerState) (t : ℝ) : SignRecognizerState :=
  ⟨t, st.recognitionThreshold⟩

/-- SignRecognizer.setRecognitionThreshold. -/
def setRecognitionThreshold (st : SignRecognizerState) (t : ℝ) : SignRecognizerState :=
  ⟨st.detectionThreshold, t⟩

/-- SignRecognizer.recognize: guard on length 21, compute the neural candidate,
return it when its confidence reaches the recognition threshold, otherwise
fall back to the rule candidate when that one has strictly higher confidence,
otherwise return the neural candidate. -/
noncomputable def recognize (st : SignRecognizerState) (lms : List HandLandmark) :
    RecognitionResult :=
  if lms.length ≠ 21 then noGesture
  else
    let mlResult := recognizeWithAdvancedML lms
    if mlResult.confidence ≥ st.recognitionThreshold then mlResult
    else
      let ruleResult := recognizeByRules lms
      if ruleResult.confidence > mlResult.confidence then ruleResult else mlResult

/-- The landmark vector built by SignRecognizer.recognizeFromPointer from a
flat buffer of 42 floats: 21 points with interleaved x and y and z set to 0. -/
noncomputable def parseLandmarkBuffer (buf : List ℝ) : List HandLandmark :=
  (List.range 21).map fun i => ⟨buf.getD (i * 2) 0, buf.getD (i * 2 + 1) 0, 0⟩

/-- SignRecognizer.recognizeFromPointer up to JSON serialization: a buffer
whose length is not 42 yields the fixed no-gesture result, otherwise the
buffer is parsed and passed to recognize.  The JSON string the source then
emits is a pure function of this RecognitionResult. -/
noncomputable def recognizeFromPointer (st : SignRecognizerState) (buf : List ℝ) :
    RecognitionResult :=
  if buf.length ≠ 42 then noGesture else recognize st (parseLandmarkBuffer buf)

/-- The configured feature width of class SignRecognition (sign_recognition.h). -/
def D_IN : ℕ := 126

/-- The scaler state of a SignRecognition instance. -/
structure SignRecognitionState where
  mean : List ℝ
  scale : List ℝ

/-- The constructor state of SignRecognition: mean all zero, scale all one. -/
noncomputable def initSignRecognition : SignRecognitionState :=
  ⟨List.replicate D_IN 0, List.replicate D_IN 1⟩

/-- SignRecognition.setScaler: each array is replaced exactly when its own
length equals D_IN, by two independent conditionals. -/
def setScaler (st : SignRecognitionState) (meanArr scaleArr : List ℝ) :
    SignRecognitionState :=
  ⟨if meanArr.length = D_IN then meanArr else st.mean,
    if scaleArr.length = D_IN then scaleArr else st.scale⟩

/-- Componentwise difference of two landmark points. -/
noncomputable def vsub (a b : HandLandmark) : HandLandmark :=
  ⟨a.x - b.x, a.y - b.y, a.z - b.z⟩

/-- Componentwise sum of two landmark points. -/
noncomputable def vadd (a b : HandLandmark) : HandLandmark :=
  ⟨a.x + b.x, a.y + b.y, a.z + b.z⟩

/-- Euclidean norm of a landmark point seen as a vector. -/
noncomputable def norm3 (p : HandLandmark) : ℝ :=
  Real.sqrt (p.x * p.x + p.y * p.y + p.z * p.z)

/-- WASMSignRecognizer.normalizeLandmarks (the JavaScript routine): empty
input yields the empty list; otherwise subtract the wrist point from every
point, take the norm of translated landmark 9 as the scale with the
JavaScript falsy fallback to 1.0 when that norm is exactly 0, and divide
every coordinate by the scale. -/
noncomputable def normalizeLandmarks (pts : List HandLandmark) : List HandLandmark :=
  match pts with
  | [] => []
  | base :: rest =>
    let centered := (base :: rest).map fun p => vsub p base
    let scale := if norm3 (centered.getD 9 ⟨0, 0, 0⟩) = 0 then 1
      else norm3 (centered.getD 9 ⟨0, 0, 0⟩)
    centered.map fun p => ⟨p.x / scale, p.y / scale, p.z / scale⟩

/-- Modelled from the spec: the normalization algorithm as the specification
words it, dividing by the reference distance exactly when it exceeds the
epsilon 1e-6 and otherwise dividing by 1.0. -/
noncomputable def normalizeLandmarksSpec (pts : List HandLandmark) : List HandLandmark :=
  match pts with
  | [] => []
  | base :: rest =>
    let centered := (base :: rest).map fun p => vsub p base
    let scale := if norm3 (centered.getD 9 ⟨0, 0, 0⟩) > 1e-6 then
      norm3 (centered.getD 9 ⟨0, 0, 0⟩) else 1
    centered.map fun p => ⟨p.x / scale, p.y / scale, p.z / scale⟩

/-- The amended normalization contract: divide by the reference distance
exactly when it is nonzero, otherwise divide by 1.0. -/
noncomputable def normalizeLandmarksAmended (pts : List HandLandmark) : List HandLandmark :=
  match pts with
  | [] => []
  | base :: rest =>
    let centered := (base :: rest).map fun p => vsub p base
    let scale := if norm3 (centered.getD 9 ⟨0, 0, 0⟩) > 0 then
      norm3 (centered.getD 9 ⟨0, 0, 0⟩) else 1
    centered.map fun p => ⟨p.x / scale, p.y / scale, p.z / scale⟩

/-- Modelled from the spec: the arbitration policy of section 4.5, used to
state that recognize implements exactly this ordered decision. -/
noncomputable def arbitrateSpec (ruleResult neuralResult : RecognitionResult)
    (recognitionThreshold : ℝ) : RecognitionResult :=
  if neuralResult.confidence ≥ recognitionThreshold then neuralResult
  else if ruleResult.confidence > neuralResult.confidence then ruleResult
  else neuralResult

/-- There are 210 unordered landmark pairs. -/
lemma pairIndices_length : pairIndices.length = 210 := by decide

/-- The raw complex feature list always has 256 entries. -/
lemma rawComplexFeatures_length (lms : List HandLandmark) :
    (rawComplexFeatures lms).length = 256 := by
  simp [rawComplexFeatures, pairIndices_length, fingerJointTriples]

/-- Standardization preserves the feature count. -/
lemma standardizeFeatures_length (fs : List ℝ) :
    (standardizeFeatures fs).length = fs.length := by
  simp only [standardizeFeatures]
  split_ifs <;> simp

/-- The extracted complex feature vector always has 256 entries. -/
lemma extractComplexFeatures_length (lms : List HandLandmark) :
    (extractComplexFeatures lms).length = 256 := by
  rw [extractComplexFeatures, standardizeFeatures_length, rawComplexFeatures_length]

/-- On any feature vector whose length is not 210, the network returns the
fail-closed all-zero logits without running the layers. -/
lemma neuralNetworkInference_badLength (fs : List ℝ) (h : fs.length ≠ 210) :
    neuralNetworkInference fs = List.replicate 5 0 := by
  rw [neuralNetworkInference, if_pos h]

/-- Reading any index of the all-zero logits vector gives 0. -/
lemma getD_zeros5 (i : ℕ) : ([0, 0, 0, 0, 0] : List ℝ).getD i 0 = 0 := by
  rcases i with _|_|_|_|_|i <;> rfl

/-- The argmax scan of the all-zero logits vector stays at index 0. -/
lemma argmax5_zeros : argmax5 ([0, 0, 0, 0, 0] : List ℝ) = (0, 0) := by
  unfold argmax5
  rw [show List.range 4 = [0, 1, 2, 3] from rfl]
  simp [getD_zeros5]

/-- Interpreting the all-zero logits yields the no-gesture label with softmax
confidence one fifth. -/
lemma interpretOutputs_zeros :
    interpretOutputs (List.replicate 5 (0 : ℝ)) = ⟨"감지되지 않음", 1 / 5, 0⟩ := by
  have h5 : (List.replicate 5 (0 : ℝ)).map Real.exp = [1, 1, 1, 1, 1] := by
    simp [List.replicate, Real.exp_zero]
  simp [interpretOutputs, argmax5_zeros, h5, gestures, Real.exp_zero]
  norm_num

/-- The neural candidate is the same for every landmark list: the feature
vector always has 256 entries, never the 210 the network expects, so the
logits are all zero and the candidate is the no-gesture label with softmax
confidence one fifth. -/
lemma recognizeWithAdvancedML_const (lms : List HandLandmark) :
    recognizeWithAdvancedML lms = ⟨"감지되지 않음", 1 / 5, 0⟩ := by
  rw [recognizeWithAdvancedML,
    neuralNetworkInference_badLength _ (by rw [extractComplexFeatures_length]; decide),
    interpretOutputs_zeros]

/-- With exactly thumb, index and pinky extended, the rule chain of
recognizeByRules matches no rule and falls through to the no-gesture result:
three fingers are counted, but the three-finger rule also demands the middle
and ring fingers. -/
lemma recognizeByRules_ily (lms : List HandLandmark) (h21 : lms.length = 21)
    (ht : thumbExt lms) (hi : indexExt lms) (hm : ¬ middleExt lms)
    (hr : ¬ ringExt lms) (hp : pinkyExt lms) :
    recognizeByRules lms = noGesture := by
  simp [recognizeByRules, extendedFingers, h21, ht, hi, hm, hr, hp]

/-- A synthetic landmark set in which exactly the thumb, the index finger and
the pinky are extended (the ILY hand shape): the thumb tip is laterally
farther from the wrist than the thumb ip, the index and pinky chains strictly
ascend toward the palm in y, and the middle and ring tips hang below their
pip joints. -/
noncomputable def lmsILY : List HandLandmark :=
  [⟨0, 10, 0⟩, ⟨0, 9, 0⟩, ⟨1, 9, 0⟩, ⟨1, 9, 0⟩, ⟨2, 8, 0⟩,
   ⟨0, 6, 0⟩, ⟨0, 5, 0⟩, ⟨0, 4, 0⟩, ⟨0, 3, 0⟩,
   ⟨0, 6, 0⟩, ⟨0, 5, 0⟩, ⟨0, 6, 0⟩, ⟨0, 7, 0⟩,
   ⟨0, 6, 0⟩, ⟨0, 5, 0⟩, ⟨0, 6, 0⟩, ⟨0, 7, 0⟩,
   ⟨0, 6, 0⟩, ⟨0, 5, 0⟩, ⟨0, 4, 0⟩, ⟨0, 3, 0⟩]

/-- The synthetic ILY set has 21 points. -/
lemma lmsILY_length : lmsILY.length = 21 := rfl

/-- The thumb of the ILY set is extended. -/
lemma lmsILY_thumbExt : thumbExt lmsILY := by
  show |(2 : ℝ) - 0| > |(1 : ℝ) - 0|
  norm_num

/-- The index finger of the ILY set is extended. -/
lemma lmsILY_indexExt : indexExt lmsILY := by
  show (3 : ℝ) < 5 ∧ (5 : ℝ) < 6
  norm_num

/-- The middle finger of the ILY set is not extended. -/
lemma lmsILY_middleNot : ¬ middleExt lmsILY := by
  show ¬ ((7 : ℝ) < 5 ∧ (5 : ℝ) < 6)
  norm_num

/-- The ring finger of the ILY set is not extended. -/
lemma lmsILY_ringNot : ¬ ringExt lmsILY := by
  show ¬ ((7 : ℝ) < 5 ∧ (5 : ℝ) < 6)
  norm_num

/-- The pinky of the ILY set is extended. -/
lemma lmsILY_pinkyExt : pinkyExt lmsILY := by
  show (3 : ℝ) < 5 ∧ (5 : ℝ) < 6
  norm_num

/-- The rule classifier returns the no-gesture result on the ILY set. -/
lemma recognizeByRules_lmsILY : recognizeByRules lmsILY = noGesture :=
  recognizeByRules_ily lmsILY lmsILY_length lmsILY_thumbExt lmsILY_indexExt
    lmsILY_middleNot lmsILY_ringNot lmsILY_pinkyExt

/-- When neither the neural candidate reaches the recognition threshold nor a
rule fires with confidence above one fifth, recognize returns the constant
neural candidate unchanged. -/
lemma recognize_fallthrough (st : SignRecognizerState) (lms : List HandLandmark)
    (h21 : lms.length = 21) (hθ : 1 / 5 < st.recognitionThreshold)
    (hrule : (recognizeByRules lms).confidence ≤ 1 / 5) :
    recognize st lms = ⟨"감지되지 않음", 1 / 5, 0⟩ := by
  rw [recognize, if_neg (by rw [h21]; norm_num)]
  dsimp only
  rw [recognizeWithAdvancedML_const]
  rw [if_neg (by simpa using not_le.mpr hθ)]
  dsimp only
  rw [if_neg (by simpa using not_lt.mpr hrule)]

/-- Reading a mapped list at an in-bounds index is the function applied to the
original entry, for any defaults. -/
lemma getD_map_of_lt {α β : Type} (l : List α) (f : α → β) (n : ℕ) (d : α) (d' : β)
    (h : n < l.length) : (l.map f).getD n d' = f (l.getD n d) := by
  rw [List.getD_eq_getElem?_getD, List.getD_eq_getElem?_getD, List.getElem?_map,
    List.getElem?_eq_getElem h]
  rfl

/-- The Euclidean norm of a landmark vector is nonnegative. -/
lemma norm3_nonneg (p : HandLandmark) : 0 ≤ norm3 p := Real.sqrt_nonneg _

/-- For a nonnegative scale, the JavaScript falsy fallback and the
positivity-guarded division select the same divisor. -/
lemma scale_js_eq_pos (n : ℝ) (hn : 0 ≤ n) :
    (if n = 0 then (1 : ℝ) else n) = (if n > 0 then n else 1) := by
  by_cases h : n = 0
  · rw [if_pos h, if_neg (by rw [h]; exact lt_irrefl 0)]
  · rw [if_neg h, if_pos (lt_of_le_of_ne hn (Ne.symm h))]

/-- Entry 9 of the JavaScript normalization of a nonempty list with at least
10 points, written without intermediate lists. -/
lemma normalizeLandmarks_getD9 (base : HandLandmark) (rest : List HandLandmark)
    (h9 : 9 < (base :: rest).length) :
    (normalizeLandmarks (base :: rest)).getD 9 ⟨0, 0, 0⟩ =
      ⟨(vsub ((base :: rest).getD 9 ⟨0, 0, 0⟩) base).x /
          (if norm3 (vsub ((base :: rest).getD 9 ⟨0, 0, 0⟩) base) = 0 then 1
            else norm3 (vsub ((base :: rest).getD 9 ⟨0, 0, 0⟩) base)),
        (vsub ((base :: rest).getD 9 ⟨0, 0, 0⟩) base).y /
          (if norm3 (vsub ((base :: rest).getD 9 ⟨0, 0, 0⟩) base) = 0 then 1
            else norm3 (vsub ((base :: rest).getD 9 ⟨0, 0, 0⟩) base)),
        (vsub ((base :: rest).getD 9 ⟨0, 0, 0⟩) base).z /
          (if norm3 (vsub ((base :: rest).getD 9 ⟨0, 0, 0⟩) base) = 0 then 1
            else norm3 (vsub ((base :: rest).getD 9 ⟨0, 0, 0⟩) base))⟩ := by
  simp only [normalizeLandmarks]
  rw [getD_map_of_lt _ _ 9 (⟨0, 0, 0⟩ : HandLandmark) _ (by simpa using h9)]
  rw [getD_map_of_lt _ _ 9 (⟨0, 0, 0⟩ : HandLandmark) _ h9]

/-- Entry 9 of the spec-worded normalization of a nonempty list with at least
10 points, written without intermediate lists. -/
lemma normalizeLandmarksSpec_getD9 (base : HandLandmark) (rest : List HandLandmark)
    (h9 : 9 < (base :: rest).length) :
    (normalizeLandmarksSpec (base :: rest)).getD 9 ⟨0, 0, 0⟩ =
      ⟨(vsub ((base :: rest).getD 9 ⟨0, 0, 0⟩) base).x /
          (if norm3 (vsub ((base :: rest).getD 9 ⟨0, 0, 0⟩) base) > 1e-6 then
            norm3 (vsub ((base :: rest).getD 9 ⟨0, 0, 0⟩) base) else 1),
        (vsub ((base :: rest).getD 9 ⟨0, 0, 0⟩) base).y /
          (if norm3 (vsub ((base :: rest).getD 9 ⟨0, 0, 0⟩) base) > 1e-6 then
            norm3 (vsub ((base :: rest).getD 9 ⟨0, 0, 0⟩) base) else 1),
        (vsub ((base :: rest).getD 9 ⟨0, 0, 0⟩) base).z /
          (if norm3 (vsub ((base :: rest).getD 9 ⟨0, 0, 0⟩) base) > 1e-6 then
            norm3 (vsub ((base :: rest).getD 9 ⟨0, 0, 0⟩) base) else 1)⟩ := by
  simp only [normalizeLandmarksSpec]
  rw [getD_map_of_lt _ _ 9 (⟨0, 0, 0⟩ : HandLandmark) _ (by simpa using h9)]
  rw [getD_map_of_lt _ _ 9 (⟨0, 0, 0⟩ : HandLandmark) _ h9]

/-- The tail of the degenerate landmark set: point 9 of the full list sits at
distance 1e-7 from the wrist, every other point on the wrist itself. -/
noncomputable def lmsTinyTail : List HandLandmark :=
  [⟨0, 0, 0⟩, ⟨0, 0, 0⟩, ⟨0, 0, 0⟩, ⟨0, 0, 0⟩, ⟨0, 0, 0⟩, ⟨0, 0, 0⟩, ⟨0, 0, 0⟩,
   ⟨0, 0, 0⟩, ⟨1e-7, 0, 0⟩, ⟨0, 0, 0⟩, ⟨0, 0, 0⟩, ⟨0, 0, 0⟩, ⟨0, 0, 0⟩, ⟨0, 0, 0⟩,
   ⟨0, 0, 0⟩, ⟨0, 0, 0⟩, ⟨0, 0, 0⟩, ⟨0, 0, 0⟩, ⟨0, 0, 0⟩, ⟨0, 0, 0⟩]

/-- A 21-point landmark set whose reference distance is 1e-7: positive, hence
divided by in the JavaScript code, yet below the epsilon 1e-6 of the spec. -/
noncomputable def lmsTiny : List HandLandmark := ⟨0, 0, 0⟩ :: lmsTinyTail

/-- The degenerate set has 21 points. -/
lemma lmsTiny_length : lmsTiny.length = 21 := rfl

/-- The translated reference landmark of the degenerate set has norm 1e-7. -/
lemma lmsTiny_refNorm :
    norm3 (vsub (⟨1e-7, 0, 0⟩ : HandLandmark) ⟨0, 0, 0⟩) = 1e-7 := by
  simp only [norm3, vsub]
  rw [show ((1e-7 : ℝ) - 0) * ((1e-7 : ℝ) - 0) + ((0 : ℝ) - 0) * ((0 : ℝ) - 0) +
      ((0 : ℝ) - 0) * ((0 : ℝ) - 0) = (1e-7 : ℝ) ^ 2 from by ring]
  exact Real.sqrt_sq (by norm_num)

/-- On the degenerate set the JavaScript code scales entry 9 up to 1. -/
lemma lmsTiny_js_9 : ((normalizeLandmarks lmsTiny).getD 9 ⟨0, 0, 0⟩).x = 1 := by
  rw [show lmsTiny = (⟨0, 0, 0⟩ : HandLandmark) :: lmsTinyTail from rfl]
  rw [normalizeLandmarks_getD9 _ _ (by norm_num [lmsTinyTail])]
  rw [show ((⟨0, 0, 0⟩ : HandLandmark) :: lmsTinyTail).getD 9 ⟨0, 0, 0⟩ =
      (⟨1e-7, 0, 0⟩ : HandLandmark) from rfl]
  rw [lmsTiny_refNorm, if_neg (by norm_num)]
  simp only [vsub]
  norm_num

/-- On the degenerate set the spec-worded normalization leaves entry 9 at
1e-7. -/
lemma lmsTiny_spec_9 : ((normalizeLandmarksSpec lmsTiny).getD 9 ⟨0, 0, 0⟩).x = 1e-7 := by
  rw [show lmsTiny = (⟨0, 0, 0⟩ : HandLandmark) :: lmsTinyTail from rfl]
  rw [normalizeLandmarksSpec_getD9 _ _ (by norm_num [lmsTinyTail])]
  rw [show ((⟨0, 0, 0⟩ : HandLandmark) :: lmsTinyTail).getD 9 ⟨0, 0, 0⟩ =
      (⟨1e-7, 0, 0⟩ : HandLandmark) from rfl]
  rw [lmsTiny_refNorm, if_neg (by norm_num)]
  simp only [vsub]
  norm_num

/-- Translating every landmark by the same vector leaves the centered points,
and hence the whole JavaScript normalization, unchanged. -/
lemma normalizeLandmarks_map_vadd (base : HandLandmark) (rest : List HandLandmark)
    (t : HandLandmark) :
    normalizeLandmarks ((base :: rest).map fun p => vadd p t) =
      normalizeLandmarks (base :: rest) := by
  have hfun : ((fun p => vsub p (vadd base t)) ∘ fun p => vadd p t) =
      fun p => vsub p base := by
    funext p
    simp only [Function.comp, vsub, vadd]
    congr 1 <;> ring
  have hcent : (vadd base t :: rest.map fun p => vadd p t).map
      (fun p => vsub p (vadd base t)) = (base :: rest).map fun p => vsub p base := by
    rw [show (vadd base t :: rest.map fun p => vadd p t) =
      (base :: rest).map fun p => vadd p t from rfl]
    rw [List.map_map, hfun]
  rw [show ((base :: rest).map fun p => vadd p t) =
    (vadd base t :: rest.map fun p => vadd p t) from rfl]
  simp only [normalizeLandmarks]
  simp only [hcent]

/-- The constructor state of SignRecognition with the original mean and scale
vectors, used as the starting point of the setScaler counterexample. -/
noncomputable def scalerState0 : SignRecognitionState :=
  ⟨List.replicate 126 0, List.replicate 126 1⟩

/-- Claim C1 counterexample: on the ILY landmark set with the default
thresholds, recognize returns a result whose confidence one fifth is strictly
below the recognition threshold 0.7 and which is not the canonical no-gesture
result, so no final threshold replacement happens. -/
theorem recognize_below_threshold_counterexample :
    ¬ (recognize initialState lmsILY = noGesture ∨
        (recognize initialState lmsILY).confidence ≥ initialState.recognitionThreshold) := by
  have h : recognize initialState lmsILY = ⟨"감지되지 않음", 1 / 5, 0⟩ :=
    recognize_fallthrough initialState lmsILY lmsILY_length (by norm_num [initialState])
      (by rw [recognizeByRules_lmsILY]; norm_num [noGesture])
  rw [h]
  rintro (heq | hge)
  · have hc := congrArg RecognitionResult.confidence heq
    norm_num [noGesture] at hc
  · norm_num [initialState] at hge

/-- Claim C1 (amended): recognize applies no final threshold gate.  Whenever
the rule candidate does not beat the constant neural confidence of one fifth
and the recognition threshold exceeds one fifth, the returned result keeps
confidence one fifth, strictly below the threshold, and differs from the
canonical no-gesture result. -/
theorem recognize_below_threshold_passthrough (st : SignRecognizerState)
    (lms : List HandLandmark) (h21 : lms.length = 21)
    (hθ : 1 / 5 < st.recognitionThreshold)
    (hrule : (recognizeByRules lms).confidence ≤ 1 / 5) :
    recognize st lms = ⟨"감지되지 않음", 1 / 5, 0⟩ ∧
      (recognize st lms).confidence < st.recognitionThreshold ∧
      recognize st lms ≠ noGesture := by
  have h := recognize_fallthrough st lms h21 hθ hrule
  refine ⟨h, by rw [h]; exact hθ, ?_⟩
  rw [h]
  intro heq
  have hc := congrArg RecognitionResult.confidence heq
  norm_num [noGesture] at hc

/-- Claim C1 witness: the passthrough happens on the ILY landmark set with
the default thresholds. -/
theorem recognize_below_threshold_passthrough_witness :
    lmsILY.length = 21 ∧ (1 : ℝ) / 5 < initialState.recognitionThreshold ∧
      (recognizeByRules lmsILY).confidence ≤ 1 / 5 ∧
      (recognize initialState lmsILY = ⟨"감지되지 않음", 1 / 5, 0⟩ ∧
        (recognize initialState lmsILY).confidence < initialState.recognitionThreshold ∧
        recognize initialState lmsILY ≠ noGesture) :=
  ⟨lmsILY_length, by norm_num [initialState],
    by rw [recognizeByRules_lmsILY]; norm_num [noGesture],
    recognize_below_threshold_passthrough initialState lmsILY lmsILY_length
      (by norm_num [initialState]) (by rw [recognizeByRules_lmsILY]; norm_num [noGesture])⟩

/-- Claim C2: on every 21-point landmark set, recognize implements exactly the
ordered arbitration policy of the specification between the neural candidate
and the rule candidate. -/
theorem recognize_implements_arbitration (st : SignRecognizerState)
    (lms : List HandLandmark) (h21 : lms.length = 21) :
    recognize st lms =
      arbitrateSpec (recognizeByRules lms) (recognizeWithAdvancedML lms)
        st.recognitionThreshold := by
  rw [recognize, if_neg (by rw [h21]; norm_num)]
  rfl

/-- Claim C2 witness: the arbitration equality at the ILY landmark set with
the default thresholds. -/
theorem recognize_implements_arbitration_witness :
    lmsILY.length = 21 ∧
      recognize initialState lmsILY =
        arbitrateSpec (recognizeByRules lmsILY) (recognizeWithAdvancedML lmsILY)
          initialState.recognitionThreshold :=
  ⟨lmsILY_length, recognize_implements_arbitration initialState lmsILY lmsILY_length⟩

/-- Claim C3 counterexample: interpreting the fail-closed logits of a
mismatched feature vector yields softmax confidence one fifth, not the
claimed confidence 0, so the returned result is not the canonical no-gesture
result. -/
theorem neural_mismatch_confidence_counterexample :
    ([] : List ℝ).length ≠ 210 ∧
      interpretOutputs (neuralNetworkInference []) ≠ noGesture ∧
      (interpretOutputs (neuralNetworkInference [])).confidence = 1 / 5 := by
  have h : interpretOutputs (neuralNetworkInference []) = ⟨"감지되지 않음", 1 / 5, 0⟩ := by
    rw [neuralNetworkInference_badLength [] (by simp), interpretOutputs_zeros]
  refine ⟨by simp, ?_, by rw [h]⟩
  rw [h]
  intro heq
  have hc := congrArg RecognitionResult.confidence heq
  norm_num [noGesture] at hc

/-- Claim C3 (amended): on a feature vector whose length differs from the
configured width 210 the network skips inference and returns the all-zero
logits, and the interpreted neural result carries the no-gesture label, id 0
and softmax confidence one fifth rather than confidence 0. -/
theorem neural_mismatch_fails_closed (features : List ℝ) (h : features.length ≠ 210) :
    neuralNetworkInference features = List.replicate 5 0 ∧
      interpretOutputs (neuralNetworkInference features) = ⟨"감지되지 않음", 1 / 5, 0⟩ :=
  ⟨neuralNetworkInference_badLength features h, by
    rw [neuralNetworkInference_badLength features h, interpretOutputs_zeros]⟩

/-- Claim C3 witness: the empty feature vector has mismatched length and the
fail-closed behavior follows. -/
theorem neural_mismatch_fails_closed_witness :
    ([] : List ℝ).length ≠ 210 ∧
      (neuralNetworkInference [] = List.replicate 5 0 ∧
        interpretOutputs (neuralNetworkInference []) = ⟨"감지되지 않음", 1 / 5, 0⟩) :=
  ⟨by simp, neural_mismatch_fails_closed [] (by simp)⟩

/-- Claim C4 counterexample: the ILY landmark set has exactly thumb, index
and pinky extended, yet the rule classifier returns the no-gesture result
with confidence 0 and id 0, not a Love result with confidence 0.80 and
id 6 — no such rule exists in the source. -/
theorem rules_love_counterexample :
    lmsILY.length = 21 ∧ thumbExt lmsILY ∧ indexExt lmsILY ∧ pinkyExt lmsILY ∧
      ¬ middleExt lmsILY ∧ ¬ ringExt lmsILY ∧
      recognizeByRules lmsILY = noGesture ∧
      (recognizeByRules lmsILY).confidence ≠ 0.80 ∧ (recognizeByRules lmsILY).id ≠ 6 := by
  refine ⟨lmsILY_length, lmsILY_thumbExt, lmsILY_indexExt, lmsILY_pinkyExt,
    lmsILY_middleNot, lmsILY_ringNot, recognizeByRules_lmsILY, ?_, ?_⟩
  · rw [recognizeByRules_lmsILY]
    norm_num [noGesture]
  · rw [recognizeByRules_lmsILY]
    norm_num [noGesture]

/-- Claim C4 (amended): on every 21-point landmark set with exactly thumb,
index and pinky extended, the rule classifier matches no rule and returns the
no-gesture result with label not detected, confidence 0 and id 0. -/
theorem rules_ily_returns_no_gesture (lms : List HandLandmark) (h21 : lms.length = 21)
    (ht : thumbExt lms) (hi : indexExt lms) (hp : pinkyExt lms)
    (hm : ¬ middleExt lms) (hr : ¬ ringExt lms) :
    recognizeByRules lms = noGesture :=
  recognizeByRules_ily lms h21 ht hi hm hr hp

/-- Claim C4 witness: the concrete ILY landmark set satisfies the finger
pattern and receives the no-gesture result. -/
theorem rules_ily_returns_no_gesture_witness :
    lmsILY.length = 21 ∧ thumbExt lmsILY ∧ indexExt lmsILY ∧ pinkyExt lmsILY ∧
      ¬ middleExt lmsILY ∧ ¬ ringExt lmsILY ∧ recognizeByRules lmsILY = noGesture :=
  ⟨lmsILY_length, lmsILY_thumbExt, lmsILY_indexExt, lmsILY_pinkyExt, lmsILY_middleNot,
    lmsILY_ringNot,
    rules_ily_returns_no_gesture lmsILY lmsILY_length lmsILY_thumbExt lmsILY_indexExt
      lmsILY_pinkyExt lmsILY_middleNot lmsILY_ringNot⟩

/-- Claim C5: on every landmark list whose length is not 21 the rule
classifier returns the canonical no-gesture result; the embedded function is
total, so no error is raised. -/
theorem rules_wrong_length_total (lms : List HandLandmark) (h : lms.length ≠ 21) :
    recognizeByRules lms = noGesture := by
  rw [recognizeByRules, if_pos h]

/-- Claim C5 witness: the empty landmark list. -/
theorem rules_wrong_length_total_witness :
    ([] : List HandLandmark).length ≠ 21 ∧ recognizeByRules [] = noGesture :=
  ⟨by simp, rules_wrong_length_total [] (by simp)⟩

/-- Claim C6 counterexample: on the 21-point set whose reference distance is
1e-7 the JavaScript code divides by the reference distance, while the claimed
algorithm with the 1e-6 epsilon guard would leave the coordinates unscaled;
the two normalizations differ at landmark 9. -/
theorem normalize_epsilon_counterexample :
    lmsTiny.length = 21 ∧ normalizeLandmarks lmsTiny ≠ normalizeLandmarksSpec lmsTiny := by
  refine ⟨lmsTiny_length, fun heq => ?_⟩
  have h : ((normalizeLandmarks lmsTiny).getD 9 (⟨0, 0, 0⟩ : HandLandmark)).x =
      ((normalizeLandmarksSpec lmsTiny).getD 9 (⟨0, 0, 0⟩ : HandLandmark)).x := by
    rw [heq]
  rw [lmsTiny_js_9, lmsTiny_spec_9] at h
  norm_num at h

/-- Claim C6 (amended): the normalization divides by the reference distance
exactly when it is nonzero — the guard in the code is an exact-zero test, not
the 1e-6 epsilon of the claim. -/
theorem normalize_scale_guard_exact_zero (pts : List HandLandmark)
    (h21 : pts.length = 21) :
    normalizeLandmarks pts = normalizeLandmarksAmended pts := by
  cases pts with
  | nil => rfl
  | cons base rest =>
    simp only [normalizeLandmarks, normalizeLandmarksAmended]
    have hsc := scale_js_eq_pos
      (norm3 (((base :: rest).map fun p => vsub p base).getD 9 ⟨0, 0, 0⟩)) (norm3_nonneg _)
    simp only [hsc]

/-- Claim C6 witness: the amended equality at the degenerate 21-point set. -/
theorem normalize_scale_guard_exact_zero_witness :
    lmsTiny.length = 21 ∧ normalizeLandmarks lmsTiny = normalizeLandmarksAmended lmsTiny :=
  ⟨lmsTiny_length, normalize_scale_guard_exact_zero lmsTiny lmsTiny_length⟩

/-- Claim C7 counterexample: a call with a matching mean array and a
mismatched scale array is rejected per the claim, yet it changes the state:
the mean array is replaced while the scale array is kept. -/
theorem setScaler_partial_update_counterexample :
    (List.replicate 126 (2 : ℝ)).length = D_IN ∧ ([3] : List ℝ).length ≠ D_IN ∧
      setScaler scalerState0 (List.replicate 126 2) [3] ≠ scalerState0 := by
  refine ⟨by simp [D_IN], by simp [D_IN], fun heq => ?_⟩
  have h : (setScaler scalerState0 (List.replicate 126 2) [3]).mean.getD 0 0 =
      scalerState0.mean.getD 0 0 := by
    rw [heq]
  have h1 : (setScaler scalerState0 (List.replicate 126 2) [3]).mean =
      List.replicate 126 2 := by
    simp [setScaler, D_IN]
  rw [h1, show (List.replicate 126 (2 : ℝ)).getD 0 0 = 2 from rfl,
    show scalerState0.mean.getD 0 0 = 0 from rfl] at h
  norm_num at h

/-- Claim C7 (amended): setScaler updates the two arrays independently: when
the mean length matches the feature width and the scale length does not, the
mean is replaced and the scale is kept, a partial update. -/
theorem setScaler_independent_updates (st : SignRecognitionState)
    (meanArr scaleArr : List ℝ) (hm : meanArr.length = D_IN)
    (hs : scaleArr.length ≠ D_IN) :
    setScaler st meanArr scaleArr = ⟨meanArr, st.scale⟩ := by
  simp [setScaler, hm, hs]

/-- Claim C7 witness: the partial update at the constructor state. -/
theorem setScaler_independent_updates_witness :
    (List.replicate 126 (2 : ℝ)).length = D_IN ∧ ([3] : List ℝ).length ≠ D_IN ∧
      setScaler scalerState0 (List.replicate 126 2) [3] =
        ⟨List.replicate 126 2, scalerState0.scale⟩ :=
  ⟨by simp [D_IN], by simp [D_IN],
    setScaler_independent_updates scalerState0 (List.replicate 126 2) [3]
      (by simp [D_IN]) (by simp [D_IN])⟩

/-- Claim C8: normalization is translation invariant: adding the same vector
to every landmark of a 21-point set leaves the normalized output unchanged. -/
theorem normalize_translation_invariant (pts : List HandLandmark) (t : HandLandmark)
    (h21 : pts.length = 21) :
    normalizeLandmarks (pts.map fun p => vadd p t) = normalizeLandmarks pts := by
  cases pts with
  | nil => simp at h21
  | cons base rest => exact normalizeLandmarks_map_vadd base rest t

/-- Claim C8 witness: translation invariance at the degenerate 21-point set
translated by the vector with components 1, 2 and 3. -/
theorem normalize_translation_invariant_witness :
    lmsTiny.length = 21 ∧
      normalizeLandmarks (lmsTiny.map fun p => vadd p ⟨1, 2, 3⟩) =
        normalizeLandmarks lmsTiny :=
  ⟨lmsTiny_length, normalize_translation_invariant lmsTiny ⟨1, 2, 3⟩ lmsTiny_length⟩

/-- Claim C9: the complex feature vector always has 256 entries while the
network only runs on 210, so inside recognize the neural candidate always
carries the all-zero logits and is the no-gesture label with id 0 and softmax
confidence one fifth. -/
theorem neural_path_constant (lms : List HandLandmark) (h21 : lms.length = 21) :
    (extractComplexFeatures lms).length = 256 ∧
      (∀ fs : List ℝ, fs.length ≠ 210 → neuralNetworkInference fs = List.replicate 5 0) ∧
      neuralNetworkInference (extractComplexFeatures lms) = List.replicate 5 0 ∧
      recognizeWithAdvancedML lms = ⟨"감지되지 않음", 1 / 5, 0⟩ :=
  ⟨extractComplexFeatures_length lms, fun fs h => neuralNetworkInference_badLength fs h,
    neuralNetworkInference_badLength _ (by rw [extractComplexFeatures_length]; decide),
    recognizeWithAdvancedML_const lms⟩

/-- Claim C9 witness: the constant neural path at the ILY landmark set. -/
theorem neural_path_constant_witness :
    lmsILY.length = 21 ∧
      ((extractComplexFeatures lmsILY).length = 256 ∧
        (∀ fs : List ℝ, fs.length ≠ 210 → neuralNetworkInference fs = List.replicate 5 0) ∧
        neuralNetworkInference (extractComplexFeatures lmsILY) = List.replicate 5 0 ∧
        recognizeWithAdvancedML lmsILY = ⟨"감지되지 않음", 1 / 5, 0⟩) :=
  ⟨lmsILY_length, neural_path_constant lmsILY lmsILY_length⟩

/-- Claim C10: the detection threshold never influences classification: both
recognize and recognizeFromPointer give identical results under any two
detection threshold values, for any input. -/
theorem detection_threshold_no_influence (d₁ d₂ r : ℝ) (lms : List HandLandmark)
    (buf : List ℝ) :
    recognize ⟨d₁, r⟩ lms = recognize ⟨d₂, r⟩ lms ∧
      recognizeFromPointer ⟨d₁, r⟩ buf = recognizeFromPointer ⟨d₂, r⟩ buf :=
  ⟨rfl, rfl⟩

end SignRec
